import Mathlib

/-!
Shallow embedding of the `mqttcpp` MQTT wrapper
(`src/mqttclient/types.hpp`, `src/mqttclient/mqttclient.hpp`,
`src/mqttclient/mqttclient.cpp`) together with theorems settling the
behavioural claims about it.

External library values (paho `mqtt::token_ptr`, `mqtt::const_message_ptr`,
`mqtt::properties`, ...) are modelled by small Lean structures carrying the
fields the wrapper reads; nullable shared pointers become `Option`.
C++ `throw` becomes `Except.error`; machine booleans become `Bool`.
-/

namespace mqttcpp

/-- Operation kind carried by a paho `mqtt::token` (`token::get_type()`). -/
inductive TokenType
  | CONNECT
  | SUBSCRIBE
  | PUBLISH
  | UNSUBSCRIBE
  | DISCONNECT
  deriving DecidableEq

/-- Stand-in for a paho `mqtt::token`: the wrapper only reads its type. -/
structure Token where
  ttype : TokenType
  deriving DecidableEq

/-- Stand-in for a paho `mqtt::message`: the fields the wrapper reads
(`get_topic`, `to_string`, `is_retained`). -/
structure Message where
  topic : String
  payload : String
  retained : Bool
  deriving DecidableEq

/-- Stand-in for `mqtt::ReasonCode`; `NORMAL_DISCONNECTION` is the one the
wrapper synthesizes, other codes are kept abstract by number. -/
inductive ReasonCode
  | NORMAL_DISCONNECTION
  | otherCode (n : Nat)
  deriving DecidableEq

/-- Stand-in for `mqtt::property::code`; `REASON_STRING` is the one the
wrapper reads and writes. -/
inductive PropertyCode
  | REASON_STRING
  | otherProperty (n : Nat)
  deriving DecidableEq, BEq

/-- Stand-in for `mqtt::properties`: an association list from property code
to string value (the wrapper only ever reads string-valued properties). -/
abbrev Properties : Type := List (PropertyCode × String)

/-- `get<string>(props, c)` lookup, as an `Option` (paho throws when the
property is absent; callers below turn `none` into an error). -/
def getProperty (props : Properties) (c : PropertyCode) : Option String :=
  (List.find? (fun p => p.1 == c) props).map (fun p => p.2)

/-- `struct disconnect_data` from `types.hpp`: MQTT properties plus the
reason code for a disconnection. -/
structure DisconnectData where
  props : Properties
  reason : ReasonCode
  deriving DecidableEq

/-- Stand-in for `mqtt::connect_data` (user name and password are the fields
the wrapper prints). -/
structure ConnectData where
  userName : String
  password : String
  deriving DecidableEq

/-- `enum class ExceptionType` from `types.hpp`. -/
inductive ExceptionType
  | MQTT
  | STANDARD
  | UNKNOWN
  | NONE
  deriving DecidableEq

/-- `class ExceptionTrace` from `types.hpp`: a tagged union holding a
`mqtt::exception`, a `std::exception`, an unknown-exception message, or
nothing.  Each C++ constructor sets the tag to match the stored member, so
the tagged union is exactly a Lean inductive; the stored exception objects
are represented by their message strings. -/
inductive ExceptionTrace
  | noneTrace
  | mqttExc (what : String)
  | standardExc (what : String)
  | unknownExc (message : String)
  deriving DecidableEq

/-- `ExceptionTrace::getVariant()`: the active tag. -/
def ExceptionTrace.getVariant : ExceptionTrace → ExceptionType
  | .noneTrace => ExceptionType.NONE
  | .mqttExc _ => ExceptionType.MQTT
  | .standardExc _ => ExceptionType.STANDARD
  | .unknownExc _ => ExceptionType.UNKNOWN

/-- `enum class VariantType` from `types.hpp`. -/
inductive VariantType
  | String
  | TokenPointer
  | MessagePointer
  | DeliveryTokenPointer
  | DisconnectData
  | None
  deriving DecidableEq

/-- `class CallbackVariant` from `types.hpp`: a tagged union of a string, a
(nullable) token pointer, a (nullable) message pointer, a (nullable)
delivery-token pointer, disconnect data, or nothing.  Every C++ constructor
stores exactly the member matching the tag it sets, so the class is a Lean
inductive with one constructor per `VariantType`. -/
inductive CallbackVariant
  | str (s : String)
  | tok (t : Option Token)
  | mes (m : Option Message)
  | delTok (d : Option Token)
  | disconn (d : DisconnectData)
  | noneVariant
  deriving DecidableEq

/-- `CallbackVariant::type()`: the active tag. -/
def CallbackVariant.type : CallbackVariant → VariantType
  | .str _ => VariantType.String
  | .tok _ => VariantType.TokenPointer
  | .mes _ => VariantType.MessagePointer
  | .delTok _ => VariantType.DeliveryTokenPointer
  | .disconn _ => VariantType.DisconnectData
  | .noneVariant => VariantType.None

/-- `CallbackVariant::asToken()`: throws `std::runtime_error` unless the
active type is `TokenPointer`. -/
def CallbackVariant.asToken : CallbackVariant → Except String (Option Token)
  | .tok t => Except.ok t
  | _ => Except.error "CallbackVariant is not holding a token pointer"

/-- `CallbackVariant::asMessage()`: throws unless the active type is
`MessagePointer`. -/
def CallbackVariant.asMessage : CallbackVariant → Except String (Option Message)
  | .mes m => Except.ok m
  | _ => Except.error "CallbackVariant is not holding a mqtt::const_message_ptr"

/-- `CallbackVariant::asDeliveryToken()`: throws unless the active type is
`DeliveryTokenPointer`. -/
def CallbackVariant.asDeliveryToken : CallbackVariant → Except String (Option Token)
  | .delTok d => Except.ok d
  | _ => Except.error "CallbackVariant is not holding a mqtt::delivery_token_ptr"

/-- `CallbackVariant::asString()`: throws unless the active type is
`String`. -/
def CallbackVariant.asString : CallbackVariant → Except String String
  | .str s => Except.ok s
  | _ => Except.error "CallbackVariant is not holding a std::string"

/-- `CallbackVariant::asDisconnectData()`: throws unless the active type is
`DisconnectData`. -/
def CallbackVariant.asDisconnectData : CallbackVariant → Except String DisconnectData
  | .disconn d => Except.ok d
  | _ => Except.error "CallbackVariant is not holding a disconnect_data"

/-- The dispatcher in `mqttclient.cpp` calls `info.asConnectData()` on
`EVENT_CONNECTION_UPDATE`, but the packaged `types.hpp` gives
`CallbackVariant` no alternative that can hold a `mqtt::connect_data` (the
union member `conn_data` is marked unused and no constructor fills it), so no
reachable variant value satisfies such an accessor: it fails on every
variant. -/
def CallbackVariant.asConnectData : CallbackVariant → Except String ConnectData
  | _ => Except.error "CallbackVariant is not holding a connect_data"

/-- `enum class CallbackEvent` from `mqttclient.hpp`. -/
inductive CallbackEvent
  | EVENT_CONNECTED
  | EVENT_DISCONNECTED
  | EVENT_CONNECTION_LOST
  | EVENT_CONNECTION_UPDATE
  | EVENT_MESSAGE_ARRIVED
  | EVENT_DELIVERY_COMPLETE
  | EVENT_ACTION_SUCCESS
  | EVENT_ACTION_FAILURE
  deriving DecidableEq

/-- Observable steps performed by `MqttClient::self_handle_callback_event`,
in execution order: the leading `dinfo2("[MqttClient] Event ...")` log, the
per-event default processing output (`dinfo1` lines), and an invocation of
the registered external handler `exteventHandler_(event, info)`. -/
inductive Action
  | eventLog (event : CallbackEvent)
  | internalNote (event : CallbackEvent)
  | externalCall (event : CallbackEvent) (info : CallbackVariant)
  deriving DecidableEq

/-- Whether an action is an invocation of the external handler. -/
def Action.isExternal : Action → Bool
  | .externalCall _ _ => true
  | _ => false

/-- Whether an action is an invocation of the external handler with the
given event kind. -/
def Action.isExternalFor (e : CallbackEvent) : Action → Bool
  | .externalCall e' _ => decide (e' = e)
  | _ => false

/-- The `disconnect_data` synthesized by the dispatcher when an
`EVENT_ACTION_SUCCESS` carries a `DISCONNECT` token (`mqttclient.cpp`,
`EVENT_ACTION_SUCCESS` branch). -/
def manualDisconnectData : DisconnectData :=
  { props := [(PropertyCode.REASON_STRING, "User has manually disconnected to brocker")],
    reason := ReasonCode.NORMAL_DISCONNECTION }

/-- The `EVENT_DISCONNECTED` branch of the dispatcher's `switch`: reads
`info.asDisconnectData()` (throwing on a mismatched variant) and, when the
properties are non-empty, reads the `REASON_STRING` property (paho `get`
throws when it is absent); on success it emits one default-processing log
line. -/
def disconnected_branch (info : CallbackVariant) : Except String (List Action) :=
  match info.asDisconnectData with
  | Except.error e => Except.error e
  | Except.ok d =>
    if d.props.isEmpty then
      Except.ok [Action.internalNote CallbackEvent.EVENT_DISCONNECTED]
    else
      match getProperty d.props PropertyCode.REASON_STRING with
      | some _ => Except.ok [Action.internalNote CallbackEvent.EVENT_DISCONNECTED]
      | none => Except.error "property REASON_STRING not found"

/-- A full dispatch of `EVENT_DISCONNECTED`: the leading event log, the
`EVENT_DISCONNECTED` default processing, then the external handler call when
a handler is registered.  This is the specialization of
`self_handle_callback_event` reached by the recursive call the dispatcher
makes for a successful disconnect acknowledgement. -/
def handle_disconnected (handlerSet : Bool) (info : CallbackVariant) :
    Except String (List Action) :=
  match disconnected_branch info with
  | Except.error e => Except.error e
  | Except.ok branch =>
    Except.ok (Action.eventLog CallbackEvent.EVENT_DISCONNECTED ::
      branch ++
        (if handlerSet then [Action.externalCall CallbackEvent.EVENT_DISCONNECTED info] else []))

/-- The `switch (event)` body of `MqttClient::self_handle_callback_event`:
per-event default processing.  Payload reads use the typed accessors and so
propagate their contract-violation errors; the `EVENT_ACTION_SUCCESS` branch
with a non-null `DISCONNECT` token recursively dispatches a synthesized
`EVENT_DISCONNECTED` (modelled by `handle_disconnected`, which equals the
dispatcher at that event). -/
def branch_actions (handlerSet : Bool) :
    CallbackEvent → CallbackVariant → Except String (List Action)
  | CallbackEvent.EVENT_CONNECTED, info =>
    match info.asString with
    | Except.error e => Except.error e
    | Except.ok _ => Except.ok [Action.internalNote CallbackEvent.EVENT_CONNECTED]
  | CallbackEvent.EVENT_DISCONNECTED, info => disconnected_branch info
  | CallbackEvent.EVENT_CONNECTION_UPDATE, info =>
    match info.asConnectData with
    | Except.error e => Except.error e
    | Except.ok _ => Except.ok [Action.internalNote CallbackEvent.EVENT_CONNECTION_UPDATE]
  | CallbackEvent.EVENT_CONNECTION_LOST, info =>
    match info.asString with
    | Except.error e => Except.error e
    | Except.ok _ => Except.ok [Action.internalNote CallbackEvent.EVENT_CONNECTION_LOST]
  | CallbackEvent.EVENT_MESSAGE_ARRIVED, info =>
    match info.asMessage with
    | Except.error e => Except.error e
    | Except.ok (some _) => Except.ok [Action.internalNote CallbackEvent.EVENT_MESSAGE_ARRIVED]
    | Except.ok none => Except.ok []
  | CallbackEvent.EVENT_ACTION_SUCCESS, info =>
    match info.asToken with
    | Except.error e => Except.error e
    | Except.ok (some t) =>
      if t.ttype = TokenType.DISCONNECT then
        match handle_disconnected handlerSet (CallbackVariant.disconn manualDisconnectData) with
        | Except.error e => Except.error e
        | Except.ok sub =>
          Except.ok (Action.internalNote CallbackEvent.EVENT_ACTION_SUCCESS :: sub)
      else
        Except.ok [Action.internalNote CallbackEvent.EVENT_ACTION_SUCCESS]
    | Except.ok none => Except.ok []
  | CallbackEvent.EVENT_ACTION_FAILURE, info =>
    match info.asToken with
    | Except.error e => Except.error e
    | Except.ok (some _) => Except.ok [Action.internalNote CallbackEvent.EVENT_ACTION_FAILURE]
    | Except.ok none => Except.ok []
  | CallbackEvent.EVENT_DELIVERY_COMPLETE, _ => Except.ok []

/-- `MqttClient::self_handle_callback_event(event, info)` as a trace of
observable actions: the leading event log, the per-event default
processing, and finally — only when an external handler is registered —
exactly one invocation of the handler with the same `(event, info)` pair.
`handlerSet` models whether `exteventHandler_` holds a callable. -/
def self_handle_callback_event (handlerSet : Bool) (event : CallbackEvent)
    (info : CallbackVariant) : Except String (List Action) :=
  match branch_actions handlerSet event info with
  | Except.error e => Except.error e
  | Except.ok branch =>
    Except.ok (Action.eventLog event ::
      branch ++ (if handlerSet then [Action.externalCall event info] else []))

/-- The recursive call in the `EVENT_ACTION_SUCCESS` branch really is the
dispatcher itself applied to `EVENT_DISCONNECTED`. -/
theorem handle_disconnected_is_dispatch (handlerSet : Bool) (info : CallbackVariant) :
    self_handle_callback_event handlerSet CallbackEvent.EVENT_DISCONNECTED info =
      handle_disconnected handlerSet info := rfl

/-- `MqttClient::set_event_handler`: assigns the single handler slot,
overwriting whatever was there. -/
def set_event_handler (_slot : Option Nat) (handler : Nat) : Option Nat :=
  some handler

/-- `MqttClient::unset_event_handler`: clears the single handler slot. -/
def unset_event_handler (_slot : Option Nat) : Option Nat :=
  none

/-- The possible outcomes of running the `std::function<void()>` body that
`MqttClient::common_try` guards: it either returns normally or throws a
`mqtt::exception`, some other `std::exception`, or something else entirely.
The underlying paho calls inside the body are external, so their outcome is
a parameter of the model. -/
inductive FnOutcome
  | ok
  | throwMqtt (what : String)
  | throwStd (what : String)
  | throwUnknown
  deriving DecidableEq

/-- The `ExceptionType` tag `common_try` records for each outcome. -/
def FnOutcome.tag : FnOutcome → ExceptionType
  | .ok => ExceptionType.NONE
  | .throwMqtt _ => ExceptionType.MQTT
  | .throwStd _ => ExceptionType.STANDARD
  | .throwUnknown => ExceptionType.UNKNOWN

/-- `MqttClient::common_try(fn, fnId)` (`mqttclient.cpp`): runs `fn`, and
returns `true` with the trace reset to an empty `ExceptionTrace` when no
exception escapes; each `catch` branch stores the corresponding trace
variant (guarded by the `if (excPtr_)` null check, hence the `Option.map`)
and returns `false`.  Nothing is ever rethrown: every exception is absorbed
here. -/
def common_try (excPtr : Option ExceptionTrace) (outcome : FnOutcome)
    (fnId : String) : Bool × Option ExceptionTrace :=
  match outcome with
  | FnOutcome.ok =>
    (true, excPtr.map fun _ => ExceptionTrace.noneTrace)
  | FnOutcome.throwMqtt w =>
    (false, excPtr.map fun _ => ExceptionTrace.mqttExc w)
  | FnOutcome.throwStd w =>
    (false, excPtr.map fun _ => ExceptionTrace.standardExc w)
  | FnOutcome.throwUnknown =>
    (false, excPtr.map fun _ =>
      ExceptionTrace.unknownExc ("Unknown exception from excuting \"" ++ fnId ++ "\"\n"))

namespace MqttClient

/-- `MqttClient::connect(token&)`: issues `client_.connect` inside
`common_try` with id `"Connect"`. -/
def connect (excPtr : Option ExceptionTrace) (outcome : FnOutcome) :
    Bool × Option ExceptionTrace :=
  common_try excPtr outcome "Connect"

/-- `MqttClient::disconnect(token&)`: issues `client_.disconnect` inside
`common_try` with id `"Disconnect"`. -/
def disconnect (excPtr : Option ExceptionTrace) (outcome : FnOutcome) :
    Bool × Option ExceptionTrace :=
  common_try excPtr outcome "Disconnect"

/-- `MqttClient::subscribe(token&, topic, qos)`: issues `client_.subscribe`
inside `common_try` with id `"Subscribe"`. -/
def subscribe (excPtr : Option ExceptionTrace) (outcome : FnOutcome) :
    Bool × Option ExceptionTrace :=
  common_try excPtr outcome "Subscribe"

/-- `MqttClient::unsubscribe(token&, topic)`: issues `client_.unsubscribe`
inside `common_try` with id `"Unsubscribe"`. -/
def unsubscribe (excPtr : Option ExceptionTrace) (outcome : FnOutcome) :
    Bool × Option ExceptionTrace :=
  common_try excPtr outcome "Unsubscribe"

/-- `MqttClient::publish(token&, topic, payload, qos)`: issues
`client_.publish` inside `common_try` with id `"Publish"`. -/
def publish (excPtr : Option ExceptionTrace) (outcome : FnOutcome) :
    Bool × Option ExceptionTrace :=
  common_try excPtr outcome "Publish"

end MqttClient

/-- Completion behaviour of the token an operation returned: whether it
completes within a given number of milliseconds, and whether it ever
completes at all.  This is the environment-supplied part of a blocking
wait. -/
structure TokenCompletion where
  completesWithin : Nat → Bool
  everCompletes : Bool

/-- Observable outcome of blocking on a token. -/
inductive WaitOutcome
  | completed
  | timedOut
  | blockedIndefinitely
  deriving DecidableEq

/-- paho `token::wait_for(ms)`: blocks at most `timeout` milliseconds and
reports whether the operation completed in time. -/
def token_wait_for (tok : TokenCompletion) (timeout : Nat) : WaitOutcome :=
  if tok.completesWithin timeout then WaitOutcome.completed else WaitOutcome.timedOut

/-- paho `token::wait()`: blocks until the operation completes; if it never
does, the caller blocks indefinitely. -/
def token_wait (tok : TokenCompletion) : WaitOutcome :=
  if tok.everCompletes then WaitOutcome.completed else WaitOutcome.blockedIndefinitely

/-- `MqttClient::make_wait(token, wait_for)` (`mqttclient.hpp`): calls
`token->wait_for(wait_for)` when `wait_for > 0` and `token->wait()`
otherwise.  The C++ function returns `void`: the value computed here is
observable only as elapsed time, and the call sites below discard it exactly
as the source discards `wait_for`'s boolean result. -/
def make_wait (tok : TokenCompletion) (wait_for : Nat) : WaitOutcome :=
  if wait_for > 0 then token_wait_for tok wait_for else token_wait tok

/-- The waiting overload `MqttClient::publish(topic, payload, qos, wait,
wait_for)`: issues via the token overload, then, when issuing succeeded and
`wait` is set, performs `make_wait` — whose outcome is dropped (`make_wait`
returns `void`) — and returns the issuing result unchanged. -/
def MqttClient.publish_waiting (excPtr : Option ExceptionTrace) (outcome : FnOutcome)
    (wait : Bool) (wait_for : Nat) (tok : TokenCompletion) :
    Bool × Option ExceptionTrace :=
  let res := MqttClient.publish excPtr outcome
  if res.1 && wait then
    let _ := make_wait tok wait_for
    res
  else
    res

/-- The mutable client state the consumption-related members touch:
`consumeFlag_` (the atomic toggle), the underlying paho consumer — its
enabled switch and its buffered message queue, oldest first — and the
`excPtr_` exception trace. -/
structure ClientState where
  consumeFlag : Bool
  consuming : Bool
  queue : List Message
  excPtr : Option ExceptionTrace

/-- paho `async_client::start_consuming`, modelled from the spec's
MessageConsumerQueue contract (§4.4: `start()` enables buffering, idempotent
if already started): enables the consumer switch. -/
def start_consuming (st : ClientState) : ClientState :=
  { st with consuming := true }

/-- paho `async_client::stop_consuming`, modelled from the spec's
MessageConsumerQueue contract (§4.4: `stop()` disables buffering, does not
clear already-queued messages, idempotent): disables the consumer switch. -/
def stop_consuming (st : ClientState) : ClientState :=
  { st with consuming := false }

/-- `MqttClient::consume_message(allow)` (`mqttclient.cpp`): under the
consume guard, calls `start_consuming`/`stop_consuming` on the underlying
client according to `allow`, stores `allow` into `consumeFlag_`, all inside
`common_try` (the body throws nothing in this model, so the trace is cleared
and `true` returned). -/
def consume_message (st : ClientState) (allow : Bool) : Bool × ClientState :=
  let st1 := if allow then start_consuming st else stop_consuming st
  let st2 := { st1 with consumeFlag := allow }
  let r := common_try st2.excPtr FnOutcome.ok (if allow then "Turn on" else "Turn off")
  (r.1, { st2 with excPtr := r.2 })

/-- `MqttClient::start_saving_message()`: `consume_message(true)`. -/
def start_saving_message (st : ClientState) : Bool × ClientState :=
  consume_message st true

/-- `MqttClient::stop_saving_message()`: `consume_message(false)`. -/
def stop_saving_message (st : ClientState) : Bool × ClientState :=
  consume_message st false

/-- Result of `MqttClient::get_next_message(mqtt::binary& msg)`: the
returned boolean, the value written through the `msg` reference (`none`
when the reference is left untouched), and the client state after the
call. -/
structure PopResult where
  ret : Bool
  msgOut : Option String
  state : ClientState

/-- `MqttClient::get_next_message(msg)` (`mqttclient.cpp`): when
`consumeFlag_` is false it logs, resets the trace to an empty
`ExceptionTrace` (under the `if (excPtr_)` null check) and returns `false`
without touching `msg`.  Otherwise it runs, inside `common_try`, paho
`try_consume_message`: a non-blocking pop that, when the queue is
non-empty, removes the oldest message and writes its `to_string()` payload
through `msg`, and otherwise leaves `msg` untouched.  `outcome` abstracts
whether the guarded body throws. -/
def get_next_message (st : ClientState) (outcome : FnOutcome) : PopResult :=
  if st.consumeFlag = false then
    { ret := false, msgOut := none,
      state := { st with excPtr := st.excPtr.map fun _ => ExceptionTrace.noneTrace } }
  else
    let r := common_try st.excPtr outcome "Pop message"
    match outcome, st.queue with
    | FnOutcome.ok, m :: rest =>
      { ret := r.1, msgOut := some m.payload,
        state := { st with queue := rest, excPtr := r.2 } }
    | _, _ =>
      { ret := r.1, msgOut := none, state := { st with excPtr := r.2 } }

/-- The connect-option fields the two-argument constructor assigns
(`connOpts_` in `mqttclient.cpp`); intervals and the timeout are in
seconds. -/
structure ConnectOptions where
  keepAliveInterval : Nat
  cleanSession : Bool
  automaticReconnect : Bool
  connectTimeout : Nat
  deriving DecidableEq

/-- `MqttClient::MqttClient(serverAddress, clientId)`: the two-argument
constructor.  It initializes `consumeFlag_(false)`, allocates a fresh empty
`ExceptionTrace` for `excPtr_`, and assigns the four connect options
explicitly: keep-alive 60 s, clean session, automatic reconnect, connect
timeout 10 s. -/
def MqttClient.ctor (_serverAddress _clientId : String) :
    ConnectOptions × ClientState :=
  ({ keepAliveInterval := 60, cleanSession := true,
     automaticReconnect := true, connectTimeout := 10 },
   { consumeFlag := false, consuming := false, queue := [],
     excPtr := some ExceptionTrace.noneTrace })

/-- The subscription request the wrapper hands to `client_.subscribe`. -/
structure SubscribeRequest where
  topic : String
  qos : Nat
  deriving DecidableEq

/-- `MqttClient::subscribe(token&, topic, qos)` request construction. -/
def MqttClient.subscribe_request (topic : String) (qos : Nat) : SubscribeRequest :=
  { topic := topic, qos := qos }

/-- The `subscribe` overload's declaration (`mqttclient.hpp`) defaults `qos`
to `1`: calling it without a QoS builds the request with QoS 1. -/
def MqttClient.subscribe_request_defaulted (topic : String) : SubscribeRequest :=
  MqttClient.subscribe_request topic 1

/-- The publish message the wrapper builds via
`mqtt::make_message(topic, payload, qos, false)`. -/
structure PublishRequest where
  topic : String
  payload : String
  qos : Nat
  retained : Bool
  deriving DecidableEq

/-- `MqttClient::publish(token&, topic, payload, qos)` message
construction: retained is hard-coded `false`. -/
def MqttClient.publish_request (topic payload : String) (qos : Nat) : PublishRequest :=
  { topic := topic, payload := payload, qos := qos, retained := false }

/-- Both `publish` overloads (`mqttclient.hpp`) default `qos` to `1`:
calling them without a QoS builds the message with QoS 1. -/
def MqttClient.publish_request_defaulted (topic payload : String) : PublishRequest :=
  MqttClient.publish_request topic payload 1

/-! ## Theorems -/

/-- C1: For every `CallbackVariant` value and every typed accessor
(`asToken`, `asMessage`, `asDeliveryToken`, `asString`,
`asDisconnectData`), the accessor returns the stored payload when the
variant's active type matches the accessor, and raises a typed fail-fast
error (a `std::runtime_error`, modelled as `Except.error` — never a silent
or undefined result) when the active type does not match. -/
theorem callback_variant_accessor_contract :
    (∀ t, (CallbackVariant.tok t).asToken = Except.ok t) ∧
    (∀ v : CallbackVariant, v.type ≠ VariantType.TokenPointer →
      v.asToken = Except.error "CallbackVariant is not holding a token pointer") ∧
    (∀ m, (CallbackVariant.mes m).asMessage = Except.ok m) ∧
    (∀ v : CallbackVariant, v.type ≠ VariantType.MessagePointer →
      v.asMessage = Except.error "CallbackVariant is not holding a mqtt::const_message_ptr") ∧
    (∀ d, (CallbackVariant.delTok d).asDeliveryToken = Except.ok d) ∧
    (∀ v : CallbackVariant, v.type ≠ VariantType.DeliveryTokenPointer →
      v.asDeliveryToken = Except.error "CallbackVariant is not holding a mqtt::delivery_token_ptr") ∧
    (∀ s, (CallbackVariant.str s).asString = Except.ok s) ∧
    (∀ v : CallbackVariant, v.type ≠ VariantType.String →
      v.asString = Except.error "CallbackVariant is not holding a std::string") ∧
    (∀ d, (CallbackVariant.disconn d).asDisconnectData = Except.ok d) ∧
    (∀ v : CallbackVariant, v.type ≠ VariantType.DisconnectData →
      v.asDisconnectData = Except.error "CallbackVariant is not holding a disconnect_data") := by
  refine ⟨fun t => rfl, ?_, fun m => rfl, ?_, fun d => rfl, ?_, fun s => rfl, ?_,
    fun d => rfl, ?_⟩ <;>
      (intro v h; cases v <;> first | rfl | exact absurd rfl h)

/-- C1 witness: the accessor contract evaluated at concrete variants — a
stored token pointer comes back as stored, and reading a token out of the
empty variant is a typed error. -/
theorem callback_variant_accessor_contract_instance :
    (CallbackVariant.tok (some { ttype := TokenType.CONNECT })).asToken =
      Except.ok (some { ttype := TokenType.CONNECT }) ∧
    CallbackVariant.noneVariant.asToken =
      Except.error "CallbackVariant is not holding a token pointer" :=
  ⟨callback_variant_accessor_contract.1 (some { ttype := TokenType.CONNECT }),
   callback_variant_accessor_contract.2.1 CallbackVariant.noneVariant (by decide)⟩

/-- C2: every operation-issuing public call (`connect`, `subscribe`,
`publish`, `unsubscribe`, `disconnect`) runs its issuing body inside
`common_try`, which absorbs `mqtt::exception`, `std::exception` and unknown
exceptions alike (the model functions are total — nothing is rethrown), and
the boolean each call returns is `true` exactly when the body raised no
exception. -/
theorem operations_return_accepted_iff_no_exception :
    ∀ (excPtr : Option ExceptionTrace) (outcome : FnOutcome),
      ((MqttClient.connect excPtr outcome).1 = true ↔ outcome = FnOutcome.ok) ∧
      ((MqttClient.subscribe excPtr outcome).1 = true ↔ outcome = FnOutcome.ok) ∧
      ((MqttClient.publish excPtr outcome).1 = true ↔ outcome = FnOutcome.ok) ∧
      ((MqttClient.unsubscribe excPtr outcome).1 = true ↔ outcome = FnOutcome.ok) ∧
      ((MqttClient.disconnect excPtr outcome).1 = true ↔ outcome = FnOutcome.ok) := by
  intro excPtr outcome
  cases outcome <;>
    simp [MqttClient.connect, MqttClient.subscribe, MqttClient.publish,
      MqttClient.unsubscribe, MqttClient.disconnect, common_try]

/-- C2 witness: a connect whose underlying library call throws a
`mqtt::exception` reports `false`; a publish whose body returns normally
reports `true`. -/
theorem operations_return_accepted_iff_no_exception_instance :
    (MqttClient.connect (some ExceptionTrace.noneTrace)
      (FnOutcome.throwMqtt "MQTT error [-1]: TCP/TLS connect failure")).1 = false ∧
    (MqttClient.publish (some ExceptionTrace.noneTrace) FnOutcome.ok).1 = true := by
  have h1 := operations_return_accepted_iff_no_exception (some ExceptionTrace.noneTrace)
    (FnOutcome.throwMqtt "MQTT error [-1]: TCP/TLS connect failure")
  have h2 := operations_return_accepted_iff_no_exception (some ExceptionTrace.noneTrace)
    FnOutcome.ok
  refine ⟨?_, h2.2.2.1.mpr rfl⟩
  rw [← Bool.not_eq_true]
  intro hb
  exact FnOutcome.noConfusion (h1.1.mp hb)

/-- C8: from every client state, calling the message-consumption toggle
twice in a row with the same direction leaves the client — return value and
full state, `consumeFlag_`, the underlying consumer switch, the queue and
the exception trace — exactly as one call does: `stop_saving_message` and
`start_saving_message` (i.e. `consume_message(false)`/`consume_message(true)`)
are idempotent. -/
theorem consume_toggle_idempotent :
    ∀ st : ClientState,
      stop_saving_message (stop_saving_message st).2 = stop_saving_message st ∧
      start_saving_message (start_saving_message st).2 = start_saving_message st := by
  intro st
  obtain ⟨f, c, q, e⟩ := st
  cases e <;> exact ⟨rfl, rfl⟩

/-- C9: a client built with only a server address and client identifier gets
keep-alive 60 s, clean session `true`, automatic reconnect `true` and
connect timeout 10 s; and the `subscribe`/`publish` overloads default QoS
to 1 when none is given. -/
theorem constructor_defaults_and_default_qos :
    (∀ serverAddress clientId,
      (MqttClient.ctor serverAddress clientId).1 =
        { keepAliveInterval := 60, cleanSession := true,
          automaticReconnect := true, connectTimeout := 10 }) ∧
    (∀ topic, (MqttClient.subscribe_request_defaulted topic).qos = 1) ∧
    (∀ topic payload, (MqttClient.publish_request_defaulted topic payload).qos = 1) :=
  ⟨fun _ _ => rfl, fun _ => rfl, fun _ _ => rfl⟩

/-- C3 counterexample: start from a client whose trace records a previous
MQTT failure and whose consumption toggle is off.  Calling
`get_next_message` is then a failed attempt — it returns `false` — yet the
trace after the call is the empty NONE variant, not a recorded failure: the
failed attempt did not record anything (and it erased the previously
recorded failure).  This refutes the claim that after every public
operation call a failed attempt leaves a recorded failure visible through
`get_last_exception()`. -/
theorem disabled_pop_clears_trace_on_failure :
    (get_next_message
      { consumeFlag := false, consuming := false, queue := [],
        excPtr := some (ExceptionTrace.mqttExc "MQTT error [-3]: client disconnected") }
      FnOutcome.ok).ret = false ∧
    (get_next_message
      { consumeFlag := false, consuming := false, queue := [],
        excPtr := some (ExceptionTrace.mqttExc "MQTT error [-3]: client disconnected") }
      FnOutcome.ok).state.excPtr = some ExceptionTrace.noneTrace :=
  ⟨rfl, rfl⟩

/-- C3 as amended: after every public operation attempt the trace reflects
that attempt — a successful attempt clears it to NONE, and an attempt that
failed because the underlying body threw records the failure tagged MQTT
for `mqtt::exception`, STANDARD for `std::exception` and UNKNOWN otherwise,
where it stays until the next attempt overwrites it — except that
`get_next_message` called while consumption is disabled returns `false`
while also clearing the trace to NONE instead of recording that failure. -/
theorem last_exception_reflects_latest_attempt :
    ∀ (e : ExceptionTrace) (outcome : FnOutcome),
      ((MqttClient.connect (some e) outcome).2.map ExceptionTrace.getVariant =
        some outcome.tag) ∧
      ((MqttClient.subscribe (some e) outcome).2.map ExceptionTrace.getVariant =
        some outcome.tag) ∧
      ((MqttClient.publish (some e) outcome).2.map ExceptionTrace.getVariant =
        some outcome.tag) ∧
      ((MqttClient.unsubscribe (some e) outcome).2.map ExceptionTrace.getVariant =
        some outcome.tag) ∧
      ((MqttClient.disconnect (some e) outcome).2.map ExceptionTrace.getVariant =
        some outcome.tag) ∧
      (∀ st : ClientState, st.excPtr = some e → st.consumeFlag = true →
        (get_next_message st outcome).state.excPtr.map ExceptionTrace.getVariant =
          some outcome.tag) ∧
      (∀ st : ClientState, st.excPtr = some e → st.consumeFlag = false →
        (get_next_message st outcome).ret = false ∧
        (get_next_message st outcome).state.excPtr = some ExceptionTrace.noneTrace) := by
  intro e outcome
  refine ⟨?_, ?_, ?_, ?_, ?_, ?_, ?_⟩
  · cases outcome <;> rfl
  · cases outcome <;> rfl
  · cases outcome <;> rfl
  · cases outcome <;> rfl
  · cases outcome <;> rfl
  · intro st h1 h2
    obtain ⟨f, c, q, ex⟩ := st
    dsimp only at h1 h2
    subst h1; subst h2
    cases outcome <;> cases q <;> rfl
  · intro st h1 h2
    obtain ⟨f, c, q, ex⟩ := st
    dsimp only at h1 h2
    subst h1; subst h2
    exact ⟨rfl, rfl⟩

/-- C3 witness: a subscribe whose body throws a `std::exception` leaves a
STANDARD trace; a successful publish clears a previous failure to NONE; a
pop with consumption enabled and a failing body records MQTT. -/
theorem last_exception_reflects_latest_attempt_instance :
    (MqttClient.subscribe (some ExceptionTrace.noneTrace)
      (FnOutcome.throwStd "std::bad_alloc")).2.map ExceptionTrace.getVariant =
      some ExceptionType.STANDARD ∧
    (MqttClient.publish (some (ExceptionTrace.standardExc "std::bad_alloc"))
      FnOutcome.ok).2.map ExceptionTrace.getVariant = some ExceptionType.NONE ∧
    (get_next_message
      { consumeFlag := true, consuming := true, queue := [],
        excPtr := some ExceptionTrace.noneTrace }
      (FnOutcome.throwMqtt "MQTT error [-3]: client disconnected")).state.excPtr.map
        ExceptionTrace.getVariant = some ExceptionType.MQTT :=
  ⟨(last_exception_reflects_latest_attempt ExceptionTrace.noneTrace
      (FnOutcome.throwStd "std::bad_alloc")).2.1,
   (last_exception_reflects_latest_attempt (ExceptionTrace.standardExc "std::bad_alloc")
      FnOutcome.ok).2.2.1,
   ((last_exception_reflects_latest_attempt ExceptionTrace.noneTrace
      (FnOutcome.throwMqtt "MQTT error [-3]: client disconnected")).2.2.2.2.2.1
      { consumeFlag := true, consuming := true, queue := [],
        excPtr := some ExceptionTrace.noneTrace } rfl rfl)⟩

/-- C6 counterexample: take an operation that never completes and the
waiting publish overload with `wait_for = 1`.  The underlying
`token::wait_for(1)` does time out, but `make_wait` returns `void`, so the
overload's result is identical — `true`, trace cleared — to the result with
a token that completes immediately: the caller receives no `TimedOut`
result distinguishable from success. -/
theorem timed_out_wait_result_discarded :
    make_wait { completesWithin := fun _ => false, everCompletes := false } 1 =
      WaitOutcome.timedOut ∧
    MqttClient.publish_waiting (some ExceptionTrace.noneTrace) FnOutcome.ok true 1
        { completesWithin := fun _ => false, everCompletes := false } =
      MqttClient.publish_waiting (some ExceptionTrace.noneTrace) FnOutcome.ok true 1
        { completesWithin := fun _ => true, everCompletes := true } ∧
    (MqttClient.publish_waiting (some ExceptionTrace.noneTrace) FnOutcome.ok true 1
        { completesWithin := fun _ => false, everCompletes := false }).1 = true :=
  ⟨rfl, rfl, rfl⟩

/-- C6 as amended: in `make_wait` a timeout of 0 means waiting indefinitely
(`token->wait()`), and any positive timeout yields a bounded wait
(`token->wait_for`) that returns control — completed or timed out, never
blocking indefinitely; but `make_wait` returns `void` and the waiting
overloads drop its outcome, so the boolean the public caller receives is
independent of the token's completion behaviour and a timeout is not
distinguishable from success there. -/
theorem wait_zero_indefinite_positive_bounded :
    ∀ (tok : TokenCompletion) (wait_for : Nat),
      make_wait tok 0 = token_wait tok ∧
      (0 < wait_for → make_wait tok wait_for ≠ WaitOutcome.blockedIndefinitely) ∧
      (∀ (tok' : TokenCompletion) (excPtr : Option ExceptionTrace)
          (outcome : FnOutcome) (wait : Bool),
        MqttClient.publish_waiting excPtr outcome wait wait_for tok =
          MqttClient.publish_waiting excPtr outcome wait wait_for tok') := by
  intro tok wait_for
  refine ⟨rfl, ?_, fun tok' excPtr outcome wait => rfl⟩
  intro hpos
  simp only [make_wait, hpos, if_pos, token_wait_for]
  cases h : tok.completesWithin wait_for <;> simp [h]

/-- C6 witness: with timeout 5 on a never-completing token the wait does
not block indefinitely. -/
theorem wait_zero_indefinite_positive_bounded_instance :
    make_wait { completesWithin := fun _ => false, everCompletes := false } 5 ≠
      WaitOutcome.blockedIndefinitely :=
  (wait_zero_indefinite_positive_bounded
    { completesWithin := fun _ => false, everCompletes := false } 5).2.1 (by decide)

/-- C7: `get_next_message` fails — returns `false` — whenever consumption
was never started or is currently stopped (`consumeFlag_` false covers
both, since the constructor initializes it false); otherwise the call is
non-blocking (a total function built on paho `try_consume_message`) and
either removes the oldest buffered message, writing its payload through the
caller's reference, or writes nothing when the queue is empty, leaving the
queue as it was. -/
theorem pop_disabled_fails_else_oldest_or_empty :
    ∀ st : ClientState,
      (st.consumeFlag = false → (get_next_message st FnOutcome.ok).ret = false) ∧
      (st.consumeFlag = true →
        (∀ m rest, st.queue = m :: rest →
          (get_next_message st FnOutcome.ok).ret = true ∧
          (get_next_message st FnOutcome.ok).msgOut = some m.payload ∧
          (get_next_message st FnOutcome.ok).state.queue = rest) ∧
        (st.queue = [] →
          (get_next_message st FnOutcome.ok).ret = true ∧
          (get_next_message st FnOutcome.ok).msgOut = none ∧
          (get_next_message st FnOutcome.ok).state.queue = [])) := by
  intro st
  obtain ⟨f, c, q, e⟩ := st
  constructor
  · intro hf
    dsimp only at hf
    subst hf
    rfl
  · intro hf
    dsimp only at hf
    subst hf
    constructor
    · intro m rest hq
      dsimp only at hq
      subst hq
      exact ⟨rfl, rfl, rfl⟩
    · intro hq
      dsimp only at hq
      subst hq
      exact ⟨rfl, rfl, rfl⟩

/-- C7 witness: a pop on a stopped client fails; a pop on a started client
with one buffered message returns its payload and leaves an empty queue. -/
theorem pop_disabled_fails_else_oldest_or_empty_instance :
    (get_next_message
      { consumeFlag := false, consuming := false, queue := [],
        excPtr := some ExceptionTrace.noneTrace } FnOutcome.ok).ret = false ∧
    (get_next_message
      { consumeFlag := true, consuming := true,
        queue := [{ topic := "t/1", payload := "hello", retained := false }],
        excPtr := some ExceptionTrace.noneTrace } FnOutcome.ok).msgOut = some "hello" :=
  ⟨(pop_disabled_fails_else_oldest_or_empty
      { consumeFlag := false, consuming := false, queue := [],
        excPtr := some ExceptionTrace.noneTrace }).1 rfl,
   (((pop_disabled_fails_else_oldest_or_empty
      { consumeFlag := true, consuming := true,
        queue := [{ topic := "t/1", payload := "hello", retained := false }],
        excPtr := some ExceptionTrace.noneTrace }).2 rfl).1
      { topic := "t/1", payload := "hello", retained := false } [] rfl).2.1⟩

/-- Helper: a successful dispatch with a registered handler is the event
log, the branch actions, then the external call. -/
theorem dispatch_shape_true (e : CallbackEvent) (i : CallbackVariant) (l : List Action)
    (hl : self_handle_callback_event true e i = Except.ok l) :
    ∃ b, branch_actions true e i = Except.ok b ∧
      l = Action.eventLog e :: b ++ [Action.externalCall e i] := by
  unfold self_handle_callback_event at hl
  cases hb : branch_actions true e i with
  | error msg => rw [hb] at hl; cases hl
  | ok b =>
    rw [hb] at hl
    cases hl
    exact ⟨b, rfl, by simp⟩

/-- Helper: a successful dispatch with no registered handler is the event
log followed by the branch actions only. -/
theorem dispatch_shape_false (e : CallbackEvent) (i : CallbackVariant) (l : List Action)
    (hl : self_handle_callback_event false e i = Except.ok l) :
    ∃ b, branch_actions false e i = Except.ok b ∧ l = Action.eventLog e :: b := by
  unfold self_handle_callback_event at hl
  cases hb : branch_actions false e i with
  | error msg => rw [hb] at hl; cases hl
  | ok b =>
    rw [hb] at hl
    cases hl
    exact ⟨b, rfl, by simp⟩

/-- Helper: whenever the `EVENT_DISCONNECTED` default processing succeeds,
it consists of the single internal log line. -/
theorem disconnected_branch_ok (i : CallbackVariant) (b : List Action)
    (hb : disconnected_branch i = Except.ok b) :
    b = [Action.internalNote CallbackEvent.EVENT_DISCONNECTED] := by
  cases i <;> try (cases hb)
  case disconn d =>
    unfold disconnected_branch at hb
    simp only [CallbackVariant.asDisconnectData] at hb
    split at hb
    · cases hb; rfl
    · split at hb
      · cases hb; rfl
      · cases hb

/-- Helper: with no registered handler, no branch of the default processing
produces an external-handler invocation (in particular the synthesized
disconnect dispatch inside the action-success branch produces none). -/
theorem branch_actions_none_external (e : CallbackEvent) (i : CallbackVariant)
    (b : List Action) (hb : branch_actions false e i = Except.ok b) :
    ∀ a ∈ b, a.isExternal = false := by
  cases e with
  | EVENT_CONNECTED => cases i <;> cases hb <;> decide
  | EVENT_DISCONNECTED =>
    have hbb := disconnected_branch_ok i b hb
    subst hbb
    decide
  | EVENT_CONNECTION_UPDATE => cases i <;> cases hb
  | EVENT_CONNECTION_LOST => cases i <;> cases hb <;> decide
  | EVENT_MESSAGE_ARRIVED =>
    cases i <;> first | cases hb | skip
    case mes m => cases m <;> cases hb <;> decide
  | EVENT_ACTION_SUCCESS =>
    cases i <;> first | cases hb | skip
    case tok t =>
      cases t with
      | none => cases hb; decide
      | some tk =>
        obtain ⟨tt⟩ := tk
        cases tt <;> cases hb <;> decide
  | EVENT_ACTION_FAILURE =>
    cases i <;> first | cases hb | skip
    case tok t => cases t <;> cases hb <;> decide
  | EVENT_DELIVERY_COMPLETE => cases hb; decide

/-- Helper: the default processing of an action-success event carrying a
non-null `DISCONNECT` token is the success log followed by a full
synthesized-disconnect dispatch. -/
theorem branch_action_success_disconnect (hs : Bool) (t : Token)
    (h : t.ttype = TokenType.DISCONNECT) :
    branch_actions hs CallbackEvent.EVENT_ACTION_SUCCESS
        (CallbackVariant.tok (some t)) =
      Except.ok (Action.internalNote CallbackEvent.EVENT_ACTION_SUCCESS ::
        Action.eventLog CallbackEvent.EVENT_DISCONNECTED ::
        Action.internalNote CallbackEvent.EVENT_DISCONNECTED ::
        (if hs then
          [Action.externalCall CallbackEvent.EVENT_DISCONNECTED
            (CallbackVariant.disconn manualDisconnectData)]
         else [])) := by
  obtain ⟨tt⟩ := t
  simp only at h
  subst h
  cases hs <;> rfl

/-- C4: dispatching an action-success event whose (non-null) token is a
`DISCONNECT` operation, with an external handler registered, delivers
exactly one synthesized `EVENT_DISCONNECTED` event to that handler: the
transport only reports operation success, and the wrapper compensates by
recursively dispatching the synthesized disconnect exactly once. -/
theorem disconnect_success_synthesizes_single_disconnected
    (t : Token) (h : t.ttype = TokenType.DISCONNECT) (l : List Action)
    (hl : self_handle_callback_event true CallbackEvent.EVENT_ACTION_SUCCESS
      (CallbackVariant.tok (some t)) = Except.ok l) :
    (l.filter (Action.isExternalFor CallbackEvent.EVENT_DISCONNECTED)).length = 1 := by
  obtain ⟨b, hb, hshape⟩ := dispatch_shape_true _ _ _ hl
  rw [branch_action_success_disconnect true t h] at hb
  cases hb
  subst hshape
  rfl

/-- C4 witness: the dispatch evaluated on a concrete disconnect token. -/
theorem disconnect_success_synthesizes_single_disconnected_instance :
    (([Action.eventLog CallbackEvent.EVENT_ACTION_SUCCESS,
       Action.internalNote CallbackEvent.EVENT_ACTION_SUCCESS,
       Action.eventLog CallbackEvent.EVENT_DISCONNECTED,
       Action.internalNote CallbackEvent.EVENT_DISCONNECTED,
       Action.externalCall CallbackEvent.EVENT_DISCONNECTED
         (CallbackVariant.disconn manualDisconnectData),
       Action.externalCall CallbackEvent.EVENT_ACTION_SUCCESS
         (CallbackVariant.tok (some { ttype := TokenType.DISCONNECT }))]).filter
      (Action.isExternalFor CallbackEvent.EVENT_DISCONNECTED)).length = 1 :=
  disconnect_success_synthesizes_single_disconnected
    { ttype := TokenType.DISCONNECT } rfl _ rfl

/-- C5: for every dispatched event the internal default processing runs to
completion first and the external handler is invoked with that same event
last; with no handler registered a dispatch performs no external delivery
at all (the event is dropped); and the handler slot is a single
assign-overwrite cell: registering replaces whatever was registered. -/
theorem internal_before_external_and_single_slot :
    (∀ (e : CallbackEvent) (i : CallbackVariant) (l : List Action),
      self_handle_callback_event true e i = Except.ok l →
      ∃ pre, l = pre ++ [Action.externalCall e i]) ∧
    (∀ (e : CallbackEvent) (i : CallbackVariant) (l : List Action),
      self_handle_callback_event false e i = Except.ok l →
      ∀ a ∈ l, a.isExternal = false) ∧
    (∀ (slot : Option Nat) (h1 h2 : Nat),
      set_event_handler (set_event_handler slot h1) h2 = set_event_handler slot h2 ∧
      set_event_handler slot h1 = some h1 ∧
      unset_event_handler (set_event_handler slot h1) = none) := by
  refine ⟨?_, ?_, fun slot h1 h2 => ⟨rfl, rfl, rfl⟩⟩
  · intro e i l hl
    obtain ⟨b, _, hshape⟩ := dispatch_shape_true e i l hl
    subst hshape
    exact ⟨Action.eventLog e :: b, by simp⟩
  · intro e i l hl
    obtain ⟨b, hb, hshape⟩ := dispatch_shape_false e i l hl
    subst hshape
    intro a ha
    rcases List.mem_cons.mp ha with rfl | hab
    · rfl
    · exact branch_actions_none_external e i b hb a hab

/-- C5 witness: a concrete connected-event dispatch ends with the external
call, and the same dispatch without a handler delivers nothing external. -/
theorem internal_before_external_and_single_slot_instance :
    (∃ pre, ([Action.eventLog CallbackEvent.EVENT_CONNECTED,
              Action.internalNote CallbackEvent.EVENT_CONNECTED,
              Action.externalCall CallbackEvent.EVENT_CONNECTED (CallbackVariant.str "")] :
        List Action) =
      pre ++ [Action.externalCall CallbackEvent.EVENT_CONNECTED (CallbackVariant.str "")]) ∧
    (∀ a ∈ ([Action.eventLog CallbackEvent.EVENT_CONNECTED,
             Action.internalNote CallbackEvent.EVENT_CONNECTED] : List Action),
      a.isExternal = false) ∧
    set_event_handler (set_event_handler none 7) 8 = some 8 :=
  ⟨internal_before_external_and_single_slot.1 CallbackEvent.EVENT_CONNECTED
      (CallbackVariant.str "") _ rfl,
   internal_before_external_and_single_slot.2.1 CallbackEvent.EVENT_CONNECTED
      (CallbackVariant.str "") _ rfl,
   (internal_before_external_and_single_slot.2.2 none 7 8).1⟩

/-- C10: with an external handler registered, dispatching an action-success
event whose token type is `DISCONNECT` invokes the handler exactly twice
and in this order: first with the synthesized `EVENT_DISCONNECTED` carrying
reason code `NORMAL_DISCONNECTION`, and only afterwards with the original
`EVENT_ACTION_SUCCESS` event itself. -/
theorem disconnect_success_handler_called_twice_ordered
    (t : Token) (h : t.ttype = TokenType.DISCONNECT) (l : List Action)
    (hl : self_handle_callback_event true CallbackEvent.EVENT_ACTION_SUCCESS
      (CallbackVariant.tok (some t)) = Except.ok l) :
    l.filter Action.isExternal =
      [Action.externalCall CallbackEvent.EVENT_DISCONNECTED
        (CallbackVariant.disconn manualDisconnectData),
       Action.externalCall CallbackEvent.EVENT_ACTION_SUCCESS
        (CallbackVariant.tok (some t))] ∧
    manualDisconnectData.reason = ReasonCode.NORMAL_DISCONNECTION := by
  obtain ⟨b, hb, hshape⟩ := dispatch_shape_true _ _ _ hl
  rw [branch_action_success_disconnect true t h] at hb
  cases hb
  subst hshape
  exact ⟨rfl, rfl⟩

/-- C10 witness: the handler-call sequence evaluated on a concrete
disconnect token. -/
theorem disconnect_success_handler_called_twice_ordered_instance :
    ([Action.eventLog CallbackEvent.EVENT_ACTION_SUCCESS,
      Action.internalNote CallbackEvent.EVENT_ACTION_SUCCESS,
      Action.eventLog CallbackEvent.EVENT_DISCONNECTED,
      Action.internalNote CallbackEvent.EVENT_DISCONNECTED,
      Action.externalCall CallbackEvent.EVENT_DISCONNECTED
        (CallbackVariant.disconn manualDisconnectData),
      Action.externalCall CallbackEvent.EVENT_ACTION_SUCCESS
        (CallbackVariant.tok (some { ttype := TokenType.DISCONNECT }))] :
        List Action).filter Action.isExternal =
      [Action.externalCall CallbackEvent.EVENT_DISCONNECTED
        (CallbackVariant.disconn manualDisconnectData),
       Action.externalCall CallbackEvent.EVENT_ACTION_SUCCESS
        (CallbackVariant.tok (some { ttype := TokenType.DISCONNECT }))] ∧
    manualDisconnectData.reason = ReasonCode.NORMAL_DISCONNECTION :=
  disconnect_success_handler_called_twice_ordered
    { ttype := TokenType.DISCONNECT } rfl _ rfl

end mqttcpp
